import Mathlib

/-!
Shallow embedding of the git-repo-checker repository state reconciliation
engine (src/git_repo_checker: git_ops.py, analyzer.py, scanner.py, sync.py,
models.py), with theorems settling the specification claims.

External effects (subprocess invocations of git, the filesystem) are
modelled as oracle structures: each discrete command invocation or
filesystem query the code performs is a field of a world structure, and a
command that the Python code lets raise GitError is an Except value.

Python string operations used by the source (strip, split, startswith,
lower, slicing, replace, the in operator, int parsing) are re-implemented
here over List Char so that every definition evaluates by kernel
reduction on concrete inputs.
-/

namespace GRC

/-- Python str.strip with no arguments: drop whitespace from both ends. -/
def pyStrip (s : String) : String :=
  ⟨((s.data.dropWhile Char.isWhitespace).reverse.dropWhile Char.isWhitespace).reverse⟩

/-- Split a character list on the newline character; mirrors
Python str.split with a single-character separator. -/
def splitLinesChars : List Char → List (List Char)
  | [] => [[]]
  | c :: cs =>
    match splitLinesChars cs with
    | [] => [[c]]
    | h :: t => if c = '\n' then [] :: h :: t else (c :: h) :: t

/-- Python s.split with the newline separator. -/
def pySplitLines (s : String) : List String :=
  (splitLinesChars s.data).map (fun l => ⟨l⟩)

/-- Accumulator for splitting on whitespace runs: cur is the current
token, reversed. -/
def splitWsAux : List Char → List Char → List (List Char)
  | cur, [] => if cur.isEmpty then [] else [cur.reverse]
  | cur, c :: cs =>
    if c.isWhitespace then
      if cur.isEmpty then splitWsAux [] cs
      else cur.reverse :: splitWsAux [] cs
    else splitWsAux (c :: cur) cs

/-- Split a character list on runs of whitespace, discarding empty tokens;
mirrors Python str.split with no arguments. -/
def splitWsChars (l : List Char) : List (List Char) :=
  splitWsAux [] l

/-- Python s.split with no arguments, as a list of strings. -/
def pySplitWs (s : String) : List String :=
  (splitWsChars s.data).map (fun l => ⟨l⟩)

/-- Python s.startswith(pre). -/
def pyStartsWith (s pre : String) : Bool :=
  pre.data.isPrefixOf s.data

/-- Python s.lower (ASCII-level model). -/
def pyLower (s : String) : String :=
  ⟨s.data.map Char.toLower⟩

/-- Python slicing s[n:] by code points. -/
def pyDrop (s : String) (n : Nat) : String :=
  ⟨s.data.drop n⟩

/-- Accumulator parser for the digit part of a Python int literal:
digits with single underscores allowed strictly between digits.
The Bool flag records whether the previous character was a digit. -/
def parseDigitsAux : Nat → Bool → List Char → Option Nat
  | acc, prevDigit, [] => if prevDigit then some acc else none
  | acc, prevDigit, c :: cs =>
    if c.isDigit then parseDigitsAux (acc * 10 + (c.toNat - 48)) true cs
    else if c = '_' then
      if prevDigit then parseDigitsAux acc false cs else none
    else none

/-- Python int(s): optional surrounding whitespace, optional sign, digits;
none models a raised ValueError. -/
def pyParseInt (s : String) : Option Int :=
  match (pyStrip s).data with
  | '+' :: rest => (parseDigitsAux 0 false rest).map Int.ofNat
  | '-' :: rest => (parseDigitsAux 0 false rest).map (fun n => -(Int.ofNat n))
  | cs => (parseDigitsAux 0 false cs).map Int.ofNat

/-- Substring test on character lists; mirrors the Python in operator
on strings. -/
def listContains (pat : List Char) : List Char → Bool
  | [] => pat.isEmpty
  | c :: cs => pat.isPrefixOf (c :: cs) || listContains pat cs

/-- Python pat in s. -/
def strContains (s pat : String) : Bool :=
  listContains pat.data s.data

/-- Python str.replace(old, new) on character lists, replacing
non-overlapping occurrences left to right; each step consumes at least
one character, so the fuel argument, initialised to the length of the
subject, makes the recursion structural without changing the result. -/
def replaceFuel (pat rep : List Char) : Nat → List Char → List Char
  | 0, s => s
  | fuel + 1, s =>
    match s with
    | [] => []
    | c :: cs =>
      if !pat.isEmpty && pat.isPrefixOf (c :: cs) then
        rep ++ replaceFuel pat rep fuel (cs.drop (pat.length - 1))
      else
        c :: replaceFuel pat rep fuel cs

/-- Python s.replace(pat, rep). -/
def pyReplace (s pat rep : String) : String :=
  ⟨replaceFuel pat.data rep.data s.data.length s.data⟩

/-- A filesystem path, modelled as its list of components
(pathlib.PurePath.parts). -/
structure PurePath where
  parts : List String
deriving DecidableEq

/-- pathlib path.name: the final component, or the empty string. -/
def PurePath.name (p : PurePath) : String :=
  p.parts.getLastD ""

/-- Python str(path): components joined by the path separator. -/
def PurePath.toStr (p : PurePath) : String :=
  ⟨((p.parts.map String.data).intersperse ['/']).flatten⟩

/-- RepoStatus from models.py. -/
inductive RepoStatus where
  | CLEAN
  | DIRTY
  | UNTRACKED
  | AHEAD
  | BEHIND
  | DIVERGED
  | NO_REMOTE
  | ERROR
deriving DecidableEq

/-- Modelled from the spec: the HAS_STASH member is absent from the
WarningType enum in src/models.py although analyzer.py appends it and the
spec lists has_stash among the warning kinds; DIRTY_MAIN, NO_REMOTE and
DETACHED are from src/models.py. -/
inductive WarningType where
  | DIRTY_MAIN
  | NO_REMOTE
  | DETACHED
  | HAS_STASH
deriving DecidableEq

/-- RepoInfo from models.py. Modelled from the spec: the has_stash field
is absent from RepoInfo in src/models.py although analyzer.py, cli.py and
the tests read and write it and the spec lists it as a snapshot field. -/
structure RepoInfo where
  path : PurePath
  branch : String
  status : RepoStatus
  is_main_branch : Bool := false
  ahead_count : Int := 0
  behind_count : Int := 0
  changed_files : Nat := 0
  untracked_files : Nat := 0
  has_stash : Bool := false
  warnings : List WarningType := []
  error_message : Option String := none
deriving DecidableEq

/-- PullResult from models.py. -/
structure PullResult where
  path : PurePath
  success : Bool
  message : String
  files_changed : Nat := 0
deriving DecidableEq

/-- AutoPullConfig from models.py. -/
structure AutoPullConfig where
  enabled : Bool := true
  require_clean : Bool := true
  skip_patterns : List String := []
deriving DecidableEq

/-- Config from models.py (the fields the core consumes). -/
structure Config where
  scan_paths : List PurePath := []
  exclude_patterns : List String := []
  exclude_paths : List PurePath := []
  main_branches : List String := ["main", "master"]
  auto_pull : AutoPullConfig := {}
deriving DecidableEq

/-- ScanResult from models.py. -/
structure ScanResult where
  repos : List RepoInfo := []
  pull_results : List PullResult := []
  total_scanned : Nat := 0
  scan_errors : List String := []
deriving DecidableEq

/-- TrackedRepo from models.py. -/
structure TrackedRepo where
  path : PurePath
  remote : String
  branch : String := "main"
  ignore : Bool := false
deriving DecidableEq

/-- SyncAction from models.py. -/
inductive SyncAction where
  | CLONED
  | PULLED
  | SKIPPED
  | ERROR
deriving DecidableEq

/-- SyncRepoResult from models.py. -/
structure SyncRepoResult where
  repo : TrackedRepo
  action : SyncAction
  message : String
deriving DecidableEq

/-- GitError from git_ops.py; carries the message str(e) that
analyze_repo stores in the error snapshot. -/
structure GitError where
  message : String
deriving DecidableEq

/-- The result of subprocess.run for one git invocation, as consumed by
git_ops.py (stdout and stderr captured as text, check=False). -/
structure CompletedProcess where
  returncode : Int
  stdout : String
  stderr : String
deriving DecidableEq

/-- Oracle for the git command invocations one analyze_repo run performs
against a single repository path. A field holding Except.error models
run_git_command raising GitError (timeout or failure to launch git); an
Except.ok holds the CompletedProcess. The stash operation is modelled from
the spec (see has_stash below). -/
structure GitWorld where
  branchCmd : Except GitError CompletedProcess
  statusCmd : Except GitError CompletedProcess
  upstreamCmd : Except GitError CompletedProcess
  stashOp : Except GitError Bool
  fetchCmd : Except GitError CompletedProcess
  revListCmd : Except GitError CompletedProcess

/-- get_current_branch from git_ops.py, applied to the outcome of its
run_git_command invocation. -/
def get_current_branch (c : Except GitError CompletedProcess) :
    Except GitError String :=
  match c with
  | .error e => .error e
  | .ok result =>
    if result.returncode ≠ 0 then
      .error ⟨"Failed to get branch: " ++ pyStrip result.stderr⟩
    else
      .ok (pyStrip result.stdout)

/-- The non-empty lines of result.stdout.strip().split newline, as
computed inside get_repo_status. -/
def statusLines (stdout : String) : List String :=
  (pySplitLines (pyStrip stdout)).filter (fun l => l ≠ "")

/-- get_repo_status from git_ops.py. The loop counting changed and
untracked entries is rendered as two filters over the same lines. -/
def get_repo_status (c : Except GitError CompletedProcess) :
    Except GitError (RepoStatus × Nat × Nat) :=
  match c with
  | .error e => .error e
  | .ok result =>
    if result.returncode ≠ 0 then .ok (.ERROR, 0, 0)
    else
      let lines := statusLines result.stdout
      if lines.isEmpty then .ok (.CLEAN, 0, 0)
      else
        let untracked := (lines.filter (fun l => pyStartsWith l "??")).length
        let changed := (lines.filter (fun l => !pyStartsWith l "??")).length
        if changed > 0 then .ok (.DIRTY, changed, untracked)
        else .ok (.UNTRACKED, 0, untracked)

/-- has_upstream from git_ops.py. -/
def has_upstream (c : Except GitError CompletedProcess) :
    Except GitError Bool :=
  match c with
  | .error e => .error e
  | .ok result => .ok (result.returncode = 0)

/-- The tail of get_remote_status after the rev-list invocation returned:
nonzero exit gives (0, 0); stdout is stripped and whitespace-split; a
token count other than two gives (0, 0); behind is parsed from the first
token and ahead from the second, a parse failure (ValueError) giving
(0, 0). -/
def parseAheadBehind (result : CompletedProcess) : Int × Int :=
  if result.returncode ≠ 0 then (0, 0)
  else
    match pySplitWs (pyStrip result.stdout) with
    | [p0, p1] =>
      (match pyParseInt p0, pyParseInt p1 with
       | some behind, some ahead => (ahead, behind)
       | _, _ => (0, 0))
    | _ => (0, 0)

/-- get_remote_status from git_ops.py: probes the upstream, then runs
rev-list and parses its output via parseAheadBehind; no upstream yields
ok (0, 0); a raised GitError from either invocation propagates. -/
def get_remote_status (up rl : Except GitError CompletedProcess) :
    Except GitError (Int × Int) :=
  match has_upstream up with
  | .error e => .error e
  | .ok false => .ok (0, 0)
  | .ok true =>
    match rl with
    | .error e => .error e
    | .ok result => .ok (parseAheadBehind result)

/-- determine_remote_status from git_ops.py. -/
def determine_remote_status (ahead behind : Int) (base_status : RepoStatus) :
    RepoStatus :=
  if base_status ≠ .CLEAN ∧ base_status ≠ .UNTRACKED then base_status
  else if ahead > 0 ∧ behind > 0 then .DIVERGED
  else if ahead > 0 then .AHEAD
  else if behind > 0 then .BEHIND
  else base_status

/-- Modelled from the spec: git_ops.has_stash is called by analyzer.py but
absent from src/git_ops.py; the spec gateway contract gives
hasStash(path) as a boolean query subject to the same CommandError regime
as the other operations, so its outcome is the stashOp oracle field. -/
def has_stash (w : GitWorld) : Except GitError Bool :=
  w.stashOp

/-- fetch_repo from git_ops.py. -/
def fetch_repo (c : Except GitError CompletedProcess) :
    Except GitError Bool :=
  match c with
  | .error e => .error e
  | .ok result => .ok (result.returncode = 0)

/-- Scan for the first position where one or more digits are followed by
whitespace and the literal word file; models the regex search in
parse_pull_files_changed. -/
def findFilesChanged : List Char → Option Nat
  | [] => none
  | c :: cs =>
    if c.isDigit then
      let digits := (c :: cs).takeWhile Char.isDigit
      let rest := (c :: cs).dropWhile Char.isDigit
      let ws := rest.takeWhile Char.isWhitespace
      let rest2 := rest.dropWhile Char.isWhitespace
      if ws ≠ [] ∧ ['f', 'i', 'l', 'e'].isPrefixOf rest2 then
        parseDigitsAux 0 false digits
      else
        findFilesChanged cs
    else
      findFilesChanged cs

/-- parse_pull_files_changed from git_ops.py. -/
def parse_pull_files_changed (output : String) : Nat :=
  match findFilesChanged output.data with
  | some n => n
  | none => 0

/-- pull_repo from git_ops.py, applied to the outcome of its
run_git_command invocation; a raised GitError propagates to the caller
(scan_and_analyze does not catch it). -/
def pull_repo (repo_path : PurePath) (c : Except GitError CompletedProcess) :
    Except GitError PullResult :=
  match c with
  | .error e => .error e
  | .ok result =>
    if result.returncode ≠ 0 then
      .ok { path := repo_path, success := false,
            message := if pyStrip result.stderr ≠ "" then pyStrip result.stderr
                       else "Pull failed",
            files_changed := 0 }
    else
      let output := pyStrip result.stdout
      .ok { path := repo_path, success := true,
            message := if strContains output "Already up to date" then
                         "Already up to date"
                       else "Pull successful",
            files_changed := parse_pull_files_changed output }

/-- matches_any_pattern from scanner.py, parametrised by the fnmatch
collaborator fn (fnmatch.fnmatch name pattern). For a pattern containing
a recursive wildcard the final segment and the full path string are
checked; for any pattern, every individual path component is also checked
against the pattern with its recursive-wildcard prefix stripped. -/
def matches_any_pattern (fn : String → String → Bool) (path : PurePath)
    (patterns : List String) : Bool :=
  patterns.any (fun pattern =>
    (if strContains pattern "**" then
      fn path.name (pyReplace (pyReplace pattern "**/" "") "**" "") ||
        fn path.toStr pattern
    else
      fn path.name pattern || fn path.toStr pattern) ||
    path.parts.any (fun part => fn part (pyReplace pattern "**/" "")))

/-- should_exclude from scanner.py. -/
def should_exclude (fn : String → String → Bool) (path : PurePath)
    (exclude_patterns : List String) (exclude_paths : List PurePath) : Bool :=
  exclude_paths.contains path || matches_any_pattern fn path exclude_patterns

/-- MAX_DEPTH from scanner.py. -/
def MAX_DEPTH : Nat := 20

/-- Oracle for the filesystem queries the scanner performs: stat returns
the inode identity token (none models PermissionError or OSError),
entries lists the directory in iteration order (none models an error on
iterdir), hasGitDir answers whether path slash .git exists and is a
directory, isDir and pathExists answer is_dir and exists. -/
structure FS where
  stat : PurePath → Option Nat
  entries : PurePath → Option (List String)
  hasGitDir : PurePath → Bool
  isDir : PurePath → Bool
  pathExists : PurePath → Bool

/-- The entry loop at the bottom of scan_directory: each child directory
whose name is not hidden is scanned by recur (scan_directory one level
deeper), threading the visited set left to right and concatenating
yields. -/
def scanEntriesGo (fs : FS)
    (recur : PurePath → List Nat → List PurePath × List Nat) :
    PurePath → List String → List Nat → List PurePath × List Nat
  | _, [], visited => ([], visited)
  | root, name :: rest, visited =>
    let child : PurePath := ⟨root.parts ++ [name]⟩
    if fs.isDir child = false then scanEntriesGo fs recur root rest visited
    else if pyStartsWith name "." then scanEntriesGo fs recur root rest visited
    else
      let found := recur child visited
      let foundRest := scanEntriesGo fs recur root rest found.2
      (found.1 ++ foundRest.1, foundRest.2)

/-- scan_directory from scanner.py with the remaining depth budget
MAX_DEPTH + 1 - depth as the structural recursion fuel: fuel zero is the
depth > MAX_DEPTH early return. Yields are collected into a list and the
visited inode set is threaded through and returned. -/
def scanDirFuel (fs : FS) (fn : String → String → Bool)
    (exclude_patterns : List String) (exclude_paths : List PurePath) :
    Nat → PurePath → List Nat → List PurePath × List Nat
  | 0, _, visited => ([], visited)
  | fuel + 1, root, visited =>
    match fs.stat root with
    | none => ([], visited)
    | some ino =>
      if visited.contains ino then ([], visited)
      else
        let visited1 := visited ++ [ino]
        if should_exclude fn root exclude_patterns exclude_paths then
          ([], visited1)
        else if fs.hasGitDir root then ([root], visited1)
        else
          match fs.entries root with
          | none => ([], visited1)
          | some names =>
            scanEntriesGo fs
              (scanDirFuel fs fn exclude_patterns exclude_paths fuel)
              root names visited1

/-- scan_directory from scanner.py, at its source signature. -/
def scan_directory (fs : FS) (fn : String → String → Bool) (root : PurePath)
    (exclude_patterns : List String) (exclude_paths : List PurePath)
    (visited : List Nat) (depth : Nat) : List PurePath × List Nat :=
  scanDirFuel fs fn exclude_patterns exclude_paths
    (MAX_DEPTH + 1 - depth) root visited

/-- find_git_repos from scanner.py: scan each existing directory root at
depth zero, sharing one visited set across roots, and concatenate the
yielded repository roots. -/
def find_git_repos (fs : FS) (fn : String → String → Bool)
    (scan_paths : List PurePath) (exclude_patterns : List String)
    (exclude_paths : List PurePath) : List PurePath :=
  (scan_paths.foldl
    (fun (acc : List PurePath × List Nat) scan_path =>
      if fs.pathExists scan_path = false then acc
      else if fs.isDir scan_path = false then acc
      else
        let r := scan_directory fs fn scan_path exclude_patterns
          exclude_paths acc.2 0
        (acc.1 ++ r.1, r.2))
    ([], [])).1

/-- is_main_branch from analyzer.py. -/
def is_main_branch (branch : String) (main_branches : List String) : Bool :=
  (main_branches.map pyLower).contains (pyLower branch)

/-- detect_warnings from analyzer.py; the four appends are rendered as
concatenated conditional singletons in the same order. The HAS_STASH
append is in src/analyzer.py; the enum member it references is modelled
from the spec (see WarningType). -/
def detect_warnings (branch : String) (status : RepoStatus)
    (is_main has_remote has_stash : Bool) : List WarningType :=
  (if is_main = true ∧ status = .DIRTY then [WarningType.DIRTY_MAIN] else []) ++
  (if has_remote = false then [WarningType.NO_REMOTE] else []) ++
  (if branch = "HEAD" then [WarningType.DETACHED] else []) ++
  (if has_stash = true then [WarningType.HAS_STASH] else [])

/-- matches_skip_pattern from analyzer.py. -/
def matches_skip_pattern (fn : String → String → Bool) (path : PurePath)
    (patterns : List String) : Bool :=
  matches_any_pattern fn path patterns

/-- should_auto_pull from analyzer.py: the cascade of early false
returns. -/
def should_auto_pull (fn : String → String → Bool) (repo_info : RepoInfo)
    (config : Config) : Bool :=
  if config.auto_pull.enabled = false then false
  else if repo_info.status = .ERROR then false
  else if config.auto_pull.require_clean = true ∧
      repo_info.status ≠ .CLEAN ∧ repo_info.status ≠ .BEHIND then false
  else if repo_info.behind_count = 0 then false
  else if matches_skip_pattern fn repo_info.path
      config.auto_pull.skip_patterns then false
  else true

/-- The body of the try block of analyze_repo from analyzer.py: the
sequence of gateway calls, any raised GitError short-circuiting. -/
def analyzeRepoE (w : GitWorld) (config : Config) (repo_path : PurePath) :
    Except GitError RepoInfo := do
  let branch ← get_current_branch w.branchCmd
  let (status, changed, untracked) ← get_repo_status w.statusCmd
  let has_remote ← has_upstream w.upstreamCmd
  let repo_has_stash ← has_stash w
  let _fetched ← if has_remote then fetch_repo w.fetchCmd else pure true
  let (ahead, behind) ← get_remote_status w.upstreamCmd w.revListCmd
  let final_status := determine_remote_status ahead behind status
  let is_main := is_main_branch branch config.main_branches
  let warnings := detect_warnings branch status is_main has_remote
    repo_has_stash
  pure { path := repo_path, branch := branch, status := final_status,
         is_main_branch := is_main, ahead_count := ahead,
         behind_count := behind, changed_files := changed,
         untracked_files := untracked, has_stash := repo_has_stash,
         warnings := warnings }

/-- analyze_repo from analyzer.py: the try body with the except GitError
handler producing the degraded error snapshot. -/
def analyze_repo (w : GitWorld) (config : Config) (repo_path : PurePath) :
    RepoInfo :=
  match analyzeRepoE w config repo_path with
  | .ok info => info
  | .error e =>
    { path := repo_path, branch := "unknown", status := .ERROR,
      error_message := some e.message }

/-- One iteration of the auto-pull loop in scan_and_analyze: an eligible
snapshot is pulled via the pull oracle (the outcome of pull_repo at that
path); on success its status and behind_count are updated in place, on
failure it is left unchanged; the attempt is recorded. A raised GitError
propagates. -/
def autoPullStep (fn : String → String → Bool)
    (pull : PurePath → Except GitError PullResult) (config : Config)
    (r : RepoInfo) : Except GitError (RepoInfo × List PullResult) :=
  if should_auto_pull fn r config then
    match pull r.path with
    | .error e => .error e
    | .ok result =>
      if result.success then
        .ok ({ r with status := .CLEAN, behind_count := 0 }, [result])
      else
        .ok (r, [result])
  else
    .ok (r, [])

/-- The sequential auto-pull loop of scan_and_analyze over the sorted
snapshot list. -/
def autoPullPass (fn : String → String → Bool)
    (pull : PurePath → Except GitError PullResult) (config : Config) :
    List RepoInfo → Except GitError (List RepoInfo × List PullResult)
  | [] => .ok ([], [])
  | r :: rest =>
    match autoPullStep fn pull config r with
    | .error e => .error e
    | .ok (r2, res) =>
      match autoPullPass fn pull config rest with
      | .error e => .error e
      | .ok (rest2, resRest) => .ok (r2 :: rest2, res ++ resRest)

/-- Stable insertion into a list sorted by the boolean order le. -/
def insertSorted (le : RepoInfo → RepoInfo → Bool) (x : RepoInfo) :
    List RepoInfo → List RepoInfo
  | [] => [x]
  | y :: ys => if le x y then x :: y :: ys else y :: insertSorted le x ys

/-- The repos.sort call of scan_and_analyze: sort snapshots by path. -/
def sortByPath (repos : List RepoInfo) : List RepoInfo :=
  repos.foldr (insertSorted (fun a b => a.path.toStr ≤ b.path.toStr)) []

/-- scan_and_analyze from analyzer.py: discover repository roots, analyze
each one (the parallel fan-out is modelled as a map, legitimate because
the results are re-sorted by path before any use), then run the
sequential auto-pull loop. The worlds oracle gives each path its
per-repository gateway outcomes and pull gives each path its pull_repo
outcome. -/
def scan_and_analyze (fs : FS) (fn : String → String → Bool)
    (worlds : PurePath → GitWorld)
    (pull : PurePath → Except GitError PullResult) (config : Config)
    (auto_pull : Bool) : Except GitError ScanResult :=
  let repo_paths := find_git_repos fs fn config.scan_paths
    config.exclude_patterns config.exclude_paths
  let repos := repo_paths.map (fun p => analyze_repo (worlds p) config p)
  let sorted := sortByPath repos
  match (if auto_pull then autoPullPass fn pull config sorted
         else .ok (sorted, [])) with
  | .error e => .error e
  | .ok (repos2, pull_results) =>
    .ok { repos := repos2, pull_results := pull_results,
          total_scanned := repos2.length, scan_errors := [] }

/-- extract_git_error from sync.py. -/
def extract_git_error (message : String) : String :=
  match (pySplitLines message).findSome? (fun l =>
      let t := pyStrip l
      if pyStartsWith t "fatal:" then some (pyStrip (pyDrop t 6))
      else if pyStartsWith t "error:" then some (pyStrip (pyDrop t 6))
      else none) with
  | some s => s
  | none =>
    let lines := ((pySplitLines message).map pyStrip).filter (fun l => l ≠ "")
    match lines.getLast? with
    | some l => l
    | none => message

/-- is_branch_not_found_error from sync.py. -/
def is_branch_not_found_error (message : String) : Bool :=
  strContains (pyLower message) "remote branch" &&
    strContains (pyLower message) "not found"

/-- Oracle for one clone_repo run from sync.py. Modelled from the spec:
git_ops.clone_repo is called by sync.py but absent from src/git_ops.py;
the spec gateway contract gives clone(remoteUrl, destPath, branch?) as
returning a PullOutcome, so clone is keyed by the optional branch
argument; an Except.error models a raised CommandError.
destExistsAfterFail answers the repo.path.exists() probe after a failed
first clone. The parent mkdir is assumed to succeed. -/
structure SyncWorld where
  clone : Option String → Except GitError PullResult
  destExistsAfterFail : Bool

/-- The effects of one clone_repo run: the returned result, whether the
destination directory was removed with rmtree, and the branch argument of
each clone attempt in order. -/
structure CloneTrace where
  result : SyncRepoResult
  removedDest : Bool
  attempts : List (Option String)
deriving DecidableEq

/-- clone_repo from sync.py, recording its effects: first clone with the
requested branch; on a branch-not-found failure remove the
partially-created destination if it exists and retry once without a
branch; any GitError raised inside the try block is caught and reported
as an error result. -/
def clone_repo (w : SyncWorld) (repo : TrackedRepo) : CloneTrace :=
  match w.clone (some repo.branch) with
  | .error e =>
    ⟨⟨repo, .ERROR, extract_git_error e.message⟩, false, [some repo.branch]⟩
  | .ok result =>
    if result.success then
      ⟨⟨repo, .CLONED, "Cloned (" ++ repo.branch ++ ")"⟩, false,
        [some repo.branch]⟩
    else
      let error_msg := extract_git_error result.message
      if is_branch_not_found_error result.message then
        let removed := w.destExistsAfterFail
        match w.clone none with
        | .error e =>
          ⟨⟨repo, .ERROR, extract_git_error e.message⟩, removed,
            [some repo.branch, none]⟩
        | .ok fallback =>
          if fallback.success then
            ⟨⟨repo, .CLONED,
                "Cloned (default branch, wanted: " ++ repo.branch ++ ")"⟩,
              removed, [some repo.branch, none]⟩
          else
            ⟨⟨repo, .ERROR, extract_git_error fallback.message⟩, removed,
              [some repo.branch, none]⟩
      else
        ⟨⟨repo, .ERROR, error_msg⟩, false, [some repo.branch]⟩

/-! Helper lemmas. -/

theorem isPrefixOf_starstar_of_starstarslash {l : List Char}
    (h : (['*', '*', '/'] : List Char).isPrefixOf l = true) :
    (['*', '*'] : List Char).isPrefixOf l = true := by
  cases l with
  | nil => simp [List.isPrefixOf] at h
  | cons a l1 =>
    cases l1 with
    | nil => simp [List.isPrefixOf] at h
    | cons b l2 =>
      simp [List.isPrefixOf] at h ⊢
      exact ⟨h.1, h.2.1⟩

theorem replaceFuel_id_of_no_starstar {rep : List Char} :
    ∀ (fuel : Nat) (l : List Char),
    listContains ['*', '*'] l = false →
    replaceFuel ['*', '*', '/'] rep fuel l = l := by
  intro fuel
  induction fuel with
  | zero => intro l _; rfl
  | succ n ih =>
    intro l h
    cases l with
    | nil => rfl
    | cons c cs =>
      have h2 : listContains ['*', '*'] (c :: cs) =
          ((['*', '*'] : List Char).isPrefixOf (c :: cs) ||
            listContains ['*', '*'] cs) := rfl
      rw [h2] at h
      have hp : (['*', '*'] : List Char).isPrefixOf (c :: cs) = false := by
        cases hx : (['*', '*'] : List Char).isPrefixOf (c :: cs) <;>
          simp [hx] at h ⊢
      have hrest : listContains ['*', '*'] cs = false := by
        cases hx : listContains ['*', '*'] cs <;> simp [hx] at h ⊢
      have hps : (['*', '*', '/'] : List Char).isPrefixOf (c :: cs) = false := by
        cases hx : (['*', '*', '/'] : List Char).isPrefixOf (c :: cs)
        · rfl
        · exact absurd (isPrefixOf_starstar_of_starstarslash hx)
            (by simp [hp])
      simp [replaceFuel, hps]
      exact ih cs hrest

theorem pyReplace_id_of_no_starstar {p : String}
    (h : strContains p "**" = false) :
    pyReplace p "**/" "" = p := by
  unfold pyReplace
  have hd : ("**/" : String).data = ['*', '*', '/'] := rfl
  have he : ("" : String).data = [] := rfl
  rw [hd, he]
  rw [replaceFuel_id_of_no_starstar p.data.length p.data h]

theorem matches_any_pattern_of_component {fn : String → String → Bool}
    {p : String} {patterns : List String} {path : PurePath}
    (hmem : p ∈ patterns) (hns : strContains p "**" = false)
    (hc : ∃ part ∈ path.parts, fn part p = true) :
    matches_any_pattern fn path patterns = true := by
  unfold matches_any_pattern
  rw [List.any_eq_true]
  refine ⟨p, hmem, ?_⟩
  rw [Bool.or_eq_true]
  right
  rw [List.any_eq_true]
  obtain ⟨part, hpart, hfn⟩ := hc
  refine ⟨part, hpart, ?_⟩
  rw [pyReplace_id_of_no_starstar hns]
  exact hfn

theorem scanDirFuel_excluded {fs : FS} {fn : String → String → Bool}
    {patterns : List String} {exclude_paths : List PurePath}
    {root : PurePath}
    (h : should_exclude fn root patterns exclude_paths = true) :
    ∀ (fuel : Nat) (visited : List Nat),
    (scanDirFuel fs fn patterns exclude_paths fuel root visited).1 = [] := by
  intro fuel visited
  cases fuel with
  | zero => rfl
  | succ n =>
    simp only [scanDirFuel]
    cases fs.stat root with
    | none => rfl
    | some ino =>
      simp only
      by_cases hv : ino ∈ visited
      · simp [hv]
      · simp [hv, h]

theorem should_auto_pull_status_ne_error {fn : String → String → Bool}
    {r : RepoInfo} {config : Config}
    (h : should_auto_pull fn r config = true) : r.status ≠ .ERROR := by
  intro hs
  unfold should_auto_pull at h
  rw [if_neg] at h
  · rw [if_pos hs] at h
    exact Bool.false_ne_true h
  · intro hc
    rw [hc] at h
    exact Bool.false_ne_true h

theorem mem_insertSorted {le : RepoInfo → RepoInfo → Bool} {x a : RepoInfo} :
    ∀ {l : List RepoInfo}, a ∈ insertSorted le x l → a = x ∨ a ∈ l := by
  intro l
  induction l with
  | nil => intro h; simp [insertSorted] at h; exact Or.inl h
  | cons y ys ih =>
    intro h
    unfold insertSorted at h
    by_cases hc : le x y = true
    · rw [if_pos hc] at h
      rw [List.mem_cons] at h
      rcases h with h | h
      · exact Or.inl h
      · exact Or.inr h
    · rw [if_neg hc] at h
      rw [List.mem_cons] at h
      rcases h with h | h
      · rw [h]
        exact Or.inr (List.mem_cons_self y ys)
      · rcases ih h with h2 | h2
        · exact Or.inl h2
        · exact Or.inr (List.mem_cons_of_mem y h2)

theorem mem_sortByPath {a : RepoInfo} :
    ∀ {l : List RepoInfo}, a ∈ sortByPath l → a ∈ l := by
  intro l
  induction l with
  | nil => intro h; exact h
  | cons y ys ih =>
    intro h
    unfold sortByPath at h
    simp only [List.foldr] at h
    rcases mem_insertSorted h with h2 | h2
    · rw [h2]; exact List.mem_cons_self y ys
    · exact List.mem_cons_of_mem y (ih h2)

theorem analyzeRepoE_ok_inv {w : GitWorld} {config : Config} {p : PurePath}
    {info : RepoInfo} (h : analyzeRepoE w config p = .ok info) :
    ∃ (branch : String) (st : RepoStatus × Nat × Nat) (has_remote stash_val : Bool)
      (ab : Int × Int),
      get_current_branch w.branchCmd = .ok branch ∧
      get_repo_status w.statusCmd = .ok st ∧
      has_upstream w.upstreamCmd = .ok has_remote ∧
      w.stashOp = .ok stash_val ∧
      get_remote_status w.upstreamCmd w.revListCmd = .ok ab ∧
      info = { path := p, branch := branch,
               status := determine_remote_status ab.1 ab.2 st.1,
               is_main_branch := is_main_branch branch config.main_branches,
               ahead_count := ab.1, behind_count := ab.2,
               changed_files := st.2.1, untracked_files := st.2.2,
               has_stash := stash_val,
               warnings := detect_warnings branch st.1
                 (is_main_branch branch config.main_branches) has_remote
                 stash_val } := by
  unfold analyzeRepoE at h
  simp only [bind, Except.bind, pure, Except.pure, has_stash] at h
  split at h
  · exact absurd h (by simp)
  rename_i branch h1
  split at h
  · exact absurd h (by simp)
  rename_i st h2
  split at h
  · exact absurd h (by simp)
  rename_i has_remote h3
  split at h
  · exact absurd h (by simp)
  rename_i stash_val h4
  split at h
  · rename_i hfr
    split at h
    · exact absurd h (by simp)
    rename_i fetched h5
    split at h
    · exact absurd h (by simp)
    rename_i ab h6
    refine ⟨branch, st, has_remote, stash_val, ab, h1, h2, h3, h4, h6, ?_⟩
    cases h
    rfl
  · rename_i hfr
    split at h
    · exact absurd h (by simp)
    rename_i ab h6
    refine ⟨branch, st, has_remote, stash_val, ab, h1, h2, h3, h4, h6, ?_⟩
    cases h
    rfl

theorem get_repo_status_ok (r : CompletedProcess) :
    ∃ v, get_repo_status (.ok r) = .ok v := by
  unfold get_repo_status
  simp only
  split_ifs <;> exact ⟨_, rfl⟩

theorem analyze_repo_error_message_invariant (w : GitWorld) (config : Config)
    (p : PurePath) :
    ∀ m, (analyze_repo w config p).error_message = some m →
      (analyze_repo w config p).status = .ERROR := by
  unfold analyze_repo
  cases hE : analyzeRepoE w config p with
  | ok info =>
    intro m hm
    obtain ⟨branch, st, hr, sv, ab, _, _, _, _, _, hinfo⟩ :=
      analyzeRepoE_ok_inv hE
    rw [hinfo] at hm
    cases hm
  | error e => intro m _; rfl

theorem autoPullStep_error_invariant {fn : String → String → Bool}
    {pull : PurePath → Except GitError PullResult} {config : Config}
    {r r2 : RepoInfo} {res : List PullResult}
    (hP : ∀ m, r.error_message = some m → r.status = .ERROR)
    (h : autoPullStep fn pull config r = .ok (r2, res)) :
    ∀ m, r2.error_message = some m → r2.status = .ERROR := by
  unfold autoPullStep at h
  by_cases hs : should_auto_pull fn r config = true
  · rw [if_pos hs] at h
    split at h
    · cases h
    rename_i result hpull
    split at h
    · cases h
      intro m hm
      exact absurd (hP m hm) (should_auto_pull_status_ne_error hs)
    · cases h
      exact hP
  · rw [if_neg hs] at h
    cases h
    exact hP

theorem autoPullPass_error_invariant {fn : String → String → Bool}
    {pull : PurePath → Except GitError PullResult} {config : Config} :
    ∀ (repos repos2 : List RepoInfo) (results : List PullResult),
    (∀ r ∈ repos, ∀ m, r.error_message = some m → r.status = .ERROR) →
    autoPullPass fn pull config repos = .ok (repos2, results) →
    ∀ r ∈ repos2, ∀ m, r.error_message = some m → r.status = .ERROR := by
  intro repos
  induction repos with
  | nil =>
    intro repos2 results hP h
    unfold autoPullPass at h
    cases h
    intro r hr
    cases hr
  | cons r rest ih =>
    intro repos2 results hP h
    unfold autoPullPass at h
    split at h
    · cases h
    rename_i r2v resv hstep
    split at h
    · cases h
    rename_i rest2v res2v hrest
    cases h
    intro x hx
    rw [List.mem_cons] at hx
    rcases hx with hx | hx
    · rw [hx]
      exact autoPullStep_error_invariant
        (hP r (List.mem_cons_self r rest)) hstep
    · exact ih rest2v res2v (fun y hy => hP y (List.mem_cons_of_mem r hy))
        hrest x hx

/-! Claim theorems. -/

/-- C5: for every ahead and behind count, determine_remote_status applied
to a dirty base status returns dirty, and get_repo_status classifies any
successful status listing containing at least one non-untracked entry as
dirty (with a positive changed count). -/
theorem c5_dirty_precedence :
    (∀ ahead behind : Int,
      determine_remote_status ahead behind .DIRTY = .DIRTY) ∧
    (∀ result : CompletedProcess, result.returncode = 0 →
      (statusLines result.stdout).any (fun l => !pyStartsWith l "??") = true →
      ∃ changed untracked : Nat, 0 < changed ∧
        get_repo_status (.ok result) = .ok (.DIRTY, changed, untracked)) := by
  constructor
  · intro ahead behind
    rfl
  · intro result hrc hany
    rw [List.any_eq_true] at hany
    obtain ⟨l, hl, hp⟩ := hany
    have hne : (statusLines result.stdout).isEmpty = false := by
      cases hcase : statusLines result.stdout with
      | nil => rw [hcase] at hl; cases hl
      | cons a t => rfl
    have hpos :
        0 < ((statusLines result.stdout).filter
          (fun l => !pyStartsWith l "??")).length :=
      List.length_pos_of_mem (List.mem_filter.mpr ⟨hl, hp⟩)
    refine ⟨((statusLines result.stdout).filter
        (fun l => !pyStartsWith l "??")).length,
      ((statusLines result.stdout).filter
        (fun l => pyStartsWith l "??")).length, hpos, ?_⟩
    simp only [get_repo_status]
    rw [hrc]
    rw [if_neg (by decide)]
    simp [hne, hpos]

/-- C5 witness: a porcelain listing with one modified entry yields the
dirty classification. -/
theorem c5_witness :
    ∃ changed untracked : Nat, 0 < changed ∧
      get_repo_status (.ok ⟨0, " M a.txt", ""⟩) =
        .ok (.DIRTY, changed, untracked) :=
  c5_dirty_precedence.2 ⟨0, " M a.txt", ""⟩ rfl (by decide)

/-- C4 counterexample: get_remote_status does raise: when the upstream
probe invocation itself fails (run_git_command raising GitError on
timeout), the error propagates out of get_remote_status instead of
yielding (0, 0). -/
theorem c4_counterexample :
    get_remote_status (.error ⟨"Command timed out after 30s: rev-parse"⟩)
      (.ok ⟨0, "", ""⟩) =
      .error ⟨"Command timed out after 30s: rev-parse"⟩ := rfl

theorem grs_noup (u : CompletedProcess)
    (rl : Except GitError CompletedProcess) (h : u.returncode ≠ 0) :
    get_remote_status (.ok u) rl = .ok (0, 0) := by
  unfold get_remote_status
  rw [show has_upstream (Except.ok u) = .ok (decide (u.returncode = 0))
    from rfl]
  rw [show decide (u.returncode = 0) = false by simp [h]]

theorem grs_ok_ok (u r : CompletedProcess) (h : u.returncode = 0) :
    get_remote_status (.ok u) (.ok r) = .ok (parseAheadBehind r) := by
  unfold get_remote_status
  rw [show has_upstream (Except.ok u) = .ok (decide (u.returncode = 0))
    from rfl]
  rw [show decide (u.returncode = 0) = true by simp [h]]

theorem parseAheadBehind_badexit (r : CompletedProcess)
    (h : r.returncode ≠ 0) : parseAheadBehind r = (0, 0) := by
  unfold parseAheadBehind
  rw [if_pos h]

theorem parseAheadBehind_badlen (r : CompletedProcess)
    (hrc : r.returncode = 0)
    (hlen : (pySplitWs (pyStrip r.stdout)).length ≠ 2) :
    parseAheadBehind r = (0, 0) := by
  unfold parseAheadBehind
  rw [if_neg (by rw [hrc]; exact fun hc => hc rfl)]
  cases hparts : pySplitWs (pyStrip r.stdout) with
  | nil => rfl
  | cons a t =>
    cases t with
    | nil => rfl
    | cons b t2 =>
      cases t2 with
      | nil => rw [hparts] at hlen; simp at hlen
      | cons c t3 => rfl

theorem parseAheadBehind_badparse (r : CompletedProcess) (p0 p1 : String)
    (hrc : r.returncode = 0)
    (hparts : pySplitWs (pyStrip r.stdout) = [p0, p1])
    (hbad : pyParseInt p0 = none ∨ pyParseInt p1 = none) :
    parseAheadBehind r = (0, 0) := by
  unfold parseAheadBehind
  rw [if_neg (by rw [hrc]; exact fun hc => hc rfl), hparts]
  show (match pyParseInt p0, pyParseInt p1 with
        | some behind, some ahead => ((ahead, behind) : Int × Int)
        | _, _ => (0, 0)) = (0, 0)
  rcases hbad with hb | hb
  · rw [hb]
  · rw [hb]
    cases hother : pyParseInt p0 <;> rfl

/-- C4 amended: get_remote_status returns (0, 0) when no upstream is
configured, when rev-list exits nonzero, and when the rev-list output does
not parse as exactly two integers; but it is not exception-free: a
GitError raised by either underlying git invocation propagates, and when
neither invocation raises, the result is always an ok value. -/
theorem c4_remote_status_soft_failures :
    ∀ (up rl : Except GitError CompletedProcess),
    (∀ u, up = .ok u → u.returncode ≠ 0 →
      get_remote_status up rl = .ok (0, 0)) ∧
    (∀ u r, up = .ok u → u.returncode = 0 → rl = .ok r → r.returncode ≠ 0 →
      get_remote_status up rl = .ok (0, 0)) ∧
    (∀ u r, up = .ok u → u.returncode = 0 → rl = .ok r → r.returncode = 0 →
      (pySplitWs (pyStrip r.stdout)).length ≠ 2 →
      get_remote_status up rl = .ok (0, 0)) ∧
    (∀ u r p0 p1, up = .ok u → u.returncode = 0 → rl = .ok r →
      r.returncode = 0 → pySplitWs (pyStrip r.stdout) = [p0, p1] →
      pyParseInt p0 = none ∨ pyParseInt p1 = none →
      get_remote_status up rl = .ok (0, 0)) ∧
    (∀ u r, up = .ok u → rl = .ok r →
      ∃ v, get_remote_status up rl = .ok v) := by
  intro up rl
  refine ⟨?_, ?_, ?_, ?_, ?_⟩
  · intro u hup hrc
    subst hup
    exact grs_noup u rl hrc
  · intro u r hup hrc hrl hrrc
    subst hup
    subst hrl
    rw [grs_ok_ok u r hrc, parseAheadBehind_badexit r hrrc]
  · intro u r hup hrc hrl hrrc hlen
    subst hup
    subst hrl
    rw [grs_ok_ok u r hrc, parseAheadBehind_badlen r hrrc hlen]
  · intro u r p0 p1 hup hrc hrl hrrc hparts hbad
    subst hup
    subst hrl
    rw [grs_ok_ok u r hrc, parseAheadBehind_badparse r p0 p1 hrrc hparts hbad]
  · intro u r hup hrl
    subst hup
    subst hrl
    by_cases h : u.returncode = 0
    · exact ⟨parseAheadBehind r, grs_ok_ok u r h⟩
    · exact ⟨(0, 0), grs_noup u (.ok r) h⟩

/-- C4 amended witness: an upstream probe exiting nonzero (no upstream)
yields (0, 0). -/
theorem c4_witness :
    get_remote_status (.ok ⟨1, "", ""⟩) (.ok ⟨0, "", ""⟩) = .ok (0, 0) :=
  (c4_remote_status_soft_failures (.ok ⟨1, "", ""⟩) (.ok ⟨0, "", ""⟩)).1
    ⟨1, "", ""⟩ rfl (by decide)

/-- C6: over the snapshot data model (non-negative behind count),
should_auto_pull is true exactly when the policy is enabled, the status is
not error, under require_clean the status is clean or behind, the behind
count is positive, and the path matches no skip pattern; and regardless of
the other fields it is false whenever require_clean holds and the status
is neither clean nor behind. -/
theorem c6_should_auto_pull_iff :
    ∀ (fn : String → String → Bool) (repo_info : RepoInfo) (config : Config),
    (0 ≤ repo_info.behind_count →
      (should_auto_pull fn repo_info config = true ↔
        config.auto_pull.enabled = true ∧
        repo_info.status ≠ .ERROR ∧
        (config.auto_pull.require_clean = true →
          repo_info.status = .CLEAN ∨ repo_info.status = .BEHIND) ∧
        0 < repo_info.behind_count ∧
        matches_any_pattern fn repo_info.path
          config.auto_pull.skip_patterns = false)) ∧
    (config.auto_pull.require_clean = true → repo_info.status ≠ .CLEAN →
      repo_info.status ≠ .BEHIND →
      should_auto_pull fn repo_info config = false) := by
  intro fn repo_info config
  constructor
  · intro hnn
    unfold should_auto_pull matches_skip_pattern
    split_ifs with h1 h2 h3 h4 h5
    · simp [h1]
    · simp [h2]
    · constructor
      · intro hc
        cases hc
      · intro ⟨_, _, hrw, _, _⟩
        obtain ⟨hrq, hnc, hnb⟩ := h3
        rcases hrw hrq with hc | hc
        · exact absurd hc hnc
        · exact absurd hc hnb
    · constructor
      · intro hc
        cases hc
      · intro ⟨_, _, _, hpos, _⟩
        omega
    · constructor
      · intro hc
        cases hc
      · intro ⟨_, _, _, _, hmatch⟩
        rw [h5] at hmatch
        cases hmatch
    · constructor
      · intro _
        refine ⟨?_, h2, ?_, ?_, ?_⟩
        · cases hx : config.auto_pull.enabled
          · exact absurd hx h1
          · rfl
        · intro hrq
          by_cases hc : repo_info.status = .CLEAN
          · exact Or.inl hc
          · by_cases hb : repo_info.status = .BEHIND
            · exact Or.inr hb
            · exact absurd ⟨hrq, hc, hb⟩ h3
        · omega
        · cases hx : matches_any_pattern fn repo_info.path
              config.auto_pull.skip_patterns
          · rfl
          · exact absurd hx h5
      · intro _
        rfl
  · intro hrq hnc hnb
    unfold should_auto_pull matches_skip_pattern
    split_ifs with h1 h2 h3 h4 h5 <;> try rfl
    exact absurd ⟨hrq, hnc, hnb⟩ h3

/-- C6 witness: a clean-policy eligible snapshot (status behind, behind
count two, no skip patterns) is auto-pulled. -/
theorem c6_witness :
    should_auto_pull (fun _ _ => false)
      { path := ⟨["p"]⟩, branch := "main", status := .BEHIND,
        behind_count := 2 } {} = true :=
  ((c6_should_auto_pull_iff (fun _ _ => false)
      { path := ⟨["p"]⟩, branch := "main", status := .BEHIND,
        behind_count := 2 } {}).1 (by decide)).mpr
    ⟨rfl, by decide, fun _ => Or.inr rfl, by decide, by decide⟩

/-- C7: one auto-pull iteration updates exactly status and behind count on
a successful pull, leaves the snapshot untouched on a failed pull while
still recording the failed PullResult, and over the whole sequential pass
the recorded pull results are exactly the pull outcomes of the eligible
snapshots in order. -/
theorem c7_auto_pull_frame :
    ∀ (fn : String → String → Bool)
      (pull : PurePath → Except GitError PullResult) (config : Config)
      (r : RepoInfo) (repos : List RepoInfo),
    (∀ result, should_auto_pull fn r config = true →
      pull r.path = .ok result → result.success = true →
      autoPullStep fn pull config r =
        .ok ({ r with status := .CLEAN, behind_count := 0 }, [result])) ∧
    (∀ result, should_auto_pull fn r config = true →
      pull r.path = .ok result → result.success = false →
      autoPullStep fn pull config r = .ok (r, [result])) ∧
    (should_auto_pull fn r config = false →
      autoPullStep fn pull config r = .ok (r, [])) ∧
    (∀ (pullRes : PurePath → PullResult),
      (∀ x ∈ repos, should_auto_pull fn x config = true →
        pull x.path = .ok (pullRes x.path)) →
      ∃ repos2, autoPullPass fn pull config repos =
        .ok (repos2,
          (repos.filter (fun x => should_auto_pull fn x config)).map
            (fun x => pullRes x.path))) := by
  intro fn pull config r repos
  refine ⟨?_, ?_, ?_, ?_⟩
  · intro result hel hpull hsucc
    unfold autoPullStep
    rw [if_pos hel, hpull]
    show (if result.success then
        Except.ok ({ r with status := .CLEAN, behind_count := 0 }, [result])
      else Except.ok (r, [result])) =
      Except.ok ({ r with status := .CLEAN, behind_count := 0 }, [result])
    rw [hsucc]
    rfl
  · intro result hel hpull hfail
    unfold autoPullStep
    rw [if_pos hel, hpull]
    show (if result.success then
        Except.ok ({ r with status := .CLEAN, behind_count := 0 }, [result])
      else Except.ok (r, [result])) = Except.ok (r, [result])
    rw [hfail]
    rfl
  · intro hnel
    unfold autoPullStep
    rw [if_neg (by rw [hnel]; exact fun hc => Bool.false_ne_true hc)]
  · intro pullRes hall
    clear r
    induction repos with
    | nil => exact ⟨[], rfl⟩
    | cons r rest ih =>
      obtain ⟨rest2, hrest⟩ :=
        ih (fun x hx => hall x (List.mem_cons_of_mem r hx))
      by_cases hel : should_auto_pull fn r config = true
      · have hpull := hall r (List.mem_cons_self r rest) hel
        by_cases hsucc : (pullRes r.path).success = true
        · refine ⟨{ r with status := .CLEAN, behind_count := 0 } :: rest2, ?_⟩
          unfold autoPullPass
          rw [show autoPullStep fn pull config r =
              .ok ({ r with status := .CLEAN, behind_count := 0 },
                [pullRes r.path]) from by
            unfold autoPullStep
            rw [if_pos hel, hpull]
            show (if (pullRes r.path).success then _ else _) = _
            rw [hsucc]
            rfl]
          rw [hrest]
          simp [List.filter, hel]
        · refine ⟨r :: rest2, ?_⟩
          unfold autoPullPass
          rw [show autoPullStep fn pull config r =
              .ok (r, [pullRes r.path]) from by
            unfold autoPullStep
            rw [if_pos hel, hpull]
            show (if (pullRes r.path).success then _ else _) = _
            rw [Bool.not_eq_true] at hsucc
            rw [hsucc]
            rfl]
          rw [hrest]
          simp [List.filter, hel]
      · refine ⟨r :: rest2, ?_⟩
        unfold autoPullPass
        rw [show autoPullStep fn pull config r = .ok (r, []) from by
          unfold autoPullStep
          rw [if_neg hel]]
        rw [hrest]
        rw [Bool.not_eq_true] at hel
        simp [List.filter, hel]

/-- C7 witness: a successful eligible pull updates status to clean and
behind count to zero and records the result. -/
theorem c7_witness :
    autoPullStep (fun _ _ => false)
      (fun _ => .ok ⟨⟨["p"]⟩, true, "Pull successful", 3⟩) {}
      { path := ⟨["p"]⟩, branch := "main", status := .BEHIND,
        behind_count := 2 } =
    .ok ({ path := ⟨["p"]⟩, branch := "main", status := .CLEAN,
           behind_count := 0 }, [⟨⟨["p"]⟩, true, "Pull successful", 3⟩]) :=
  (c7_auto_pull_frame (fun _ _ => false)
      (fun _ => .ok ⟨⟨["p"]⟩, true, "Pull successful", 3⟩) {}
      { path := ⟨["p"]⟩, branch := "main", status := .BEHIND,
        behind_count := 2 } []).1
    ⟨⟨["p"]⟩, true, "Pull successful", 3⟩ (by decide) rfl rfl

/-- C8: when the initial clone fails with a branch-not-found error, the
destination directory is removed if it was partially created and the clone
is retried exactly once without a branch argument; a successful retry is
reported as cloned with the default-branch substitution message, a failed
retry as error with the fallback's own (extracted) message, and a raised
fallback error likewise; any other clone failure is reported as error
directly with no retry. -/
theorem c8_clone_branch_fallback :
    ∀ (w : SyncWorld) (repo : TrackedRepo) (result : PullResult),
    (w.clone (some repo.branch) = .ok result → result.success = false →
      is_branch_not_found_error result.message = true →
      (clone_repo w repo).removedDest = w.destExistsAfterFail ∧
      (clone_repo w repo).attempts = [some repo.branch, none] ∧
      (∀ fallback, w.clone none = .ok fallback → fallback.success = true →
        (clone_repo w repo).result =
          ⟨repo, .CLONED,
            "Cloned (default branch, wanted: " ++ repo.branch ++ ")"⟩) ∧
      (∀ fallback, w.clone none = .ok fallback → fallback.success = false →
        (clone_repo w repo).result =
          ⟨repo, .ERROR, extract_git_error fallback.message⟩) ∧
      (∀ e, w.clone none = .error e →
        (clone_repo w repo).result =
          ⟨repo, .ERROR, extract_git_error e.message⟩)) ∧
    (w.clone (some repo.branch) = .ok result → result.success = false →
      is_branch_not_found_error result.message = false →
      clone_repo w repo =
        ⟨⟨repo, .ERROR, extract_git_error result.message⟩, false,
          [some repo.branch]⟩) := by
  intro w repo result
  constructor
  · intro hclone hfail hbnf
    have hred : clone_repo w repo =
        match w.clone none with
        | .error e =>
          ⟨⟨repo, .ERROR, extract_git_error e.message⟩,
            w.destExistsAfterFail, [some repo.branch, none]⟩
        | .ok fallback =>
          if fallback.success then
            ⟨⟨repo, .CLONED,
                "Cloned (default branch, wanted: " ++ repo.branch ++ ")"⟩,
              w.destExistsAfterFail, [some repo.branch, none]⟩
          else
            ⟨⟨repo, .ERROR, extract_git_error fallback.message⟩,
              w.destExistsAfterFail, [some repo.branch, none]⟩ := by
      unfold clone_repo
      rw [hclone]
      show (if result.success then _ else _) = _
      rw [hfail]
      show (if is_branch_not_found_error result.message then _ else _) = _
      rw [hbnf]
      rfl
    cases hfb : w.clone none with
    | error e =>
      have hred2 : clone_repo w repo =
          ⟨⟨repo, .ERROR, extract_git_error e.message⟩,
            w.destExistsAfterFail, [some repo.branch, none]⟩ := by
        rw [hred, hfb]
      rw [hred2]
      refine ⟨rfl, rfl, ?_, ?_, ?_⟩
      · intro fb2 hc
        cases hc
      · intro fb2 hc
        cases hc
      · intro e2 hc
        cases hc
        rfl
    | ok fallback =>
      by_cases hs : fallback.success = true
      · have hred2 : clone_repo w repo =
            ⟨⟨repo, .CLONED,
                "Cloned (default branch, wanted: " ++ repo.branch ++ ")"⟩,
              w.destExistsAfterFail, [some repo.branch, none]⟩ := by
          rw [hred, hfb]
          show (if fallback.success then _ else _) = _
          rw [hs]
          rfl
        rw [hred2]
        refine ⟨rfl, rfl, fun _ _ _ => rfl, ?_, ?_⟩
        · intro fb2 hc hfs
          cases hc
          rw [hs] at hfs
          cases hfs
        · intro e2 hc
          cases hc
      · rw [Bool.not_eq_true] at hs
        have hred2 : clone_repo w repo =
            ⟨⟨repo, .ERROR, extract_git_error fallback.message⟩,
              w.destExistsAfterFail, [some repo.branch, none]⟩ := by
          rw [hred, hfb]
          show (if fallback.success then _ else _) = _
          rw [hs]
          rfl
        rw [hred2]
        refine ⟨rfl, rfl, ?_, ?_, ?_⟩
        · intro fb2 hc hfs
          cases hc
          rw [hs] at hfs
          cases hfs
        · intro fb2 hc _
          cases hc
          rfl
        · intro e2 hc
          cases hc
  · intro hclone hfail hnbnf
    unfold clone_repo
    rw [hclone]
    show (if result.success then _ else _) = _
    rw [hfail]
    show (if is_branch_not_found_error result.message then _ else _) = _
    rw [hnbnf]
    rfl

/-- C8 witness: a branch-not-found first clone followed by a successful
default-branch clone reports cloned with the substitution message. -/
theorem c8_witness :
    (clone_repo
      ⟨fun o => match o with
        | some _ => .ok ⟨⟨["h", "r"]⟩, false,
            "fatal: Remote branch feature-x not found in upstream origin", 0⟩
        | none => .ok ⟨⟨["h", "r"]⟩, true, "done", 0⟩, true⟩
      ⟨⟨["h", "r"]⟩, "git@example.com:o/r.git", "feature-x", false⟩).result =
    ⟨⟨⟨["h", "r"]⟩, "git@example.com:o/r.git", "feature-x", false⟩, .CLONED,
      "Cloned (default branch, wanted: feature-x)"⟩ :=
  ((c8_clone_branch_fallback
      ⟨fun o => match o with
        | some _ => .ok ⟨⟨["h", "r"]⟩, false,
            "fatal: Remote branch feature-x not found in upstream origin", 0⟩
        | none => .ok ⟨⟨["h", "r"]⟩, true, "done", 0⟩, true⟩
      ⟨⟨["h", "r"]⟩, "git@example.com:o/r.git", "feature-x", false⟩
      ⟨⟨["h", "r"]⟩, false,
        "fatal: Remote branch feature-x not found in upstream origin", 0⟩).1
    rfl rfl (by decide)).2.2.1
    ⟨⟨["h", "r"]⟩, true, "done", 0⟩ rfl rfl

/-- C9: the tree scan is total and guarded: at a depth beyond MAX_DEPTH
the scan returns immediately without yielding and without touching the
visited set, and likewise when the node's stat fails or its filesystem
identity token has already been visited (the symlink-cycle guard); being
a total function into a list, find_git_repos always produces a finite
sequence. -/
theorem c9_scanner_guards :
    ∀ (fs : FS) (fn : String → String → Bool) (patterns : List String)
      (exclude_paths : List PurePath) (visited : List Nat) (depth : Nat)
      (root : PurePath),
    (MAX_DEPTH < depth →
      scan_directory fs fn root patterns exclude_paths visited depth =
        ([], visited)) ∧
    (∀ ino, fs.stat root = some ino → ino ∈ visited →
      scan_directory fs fn root patterns exclude_paths visited depth =
        ([], visited)) ∧
    (fs.stat root = none →
      scan_directory fs fn root patterns exclude_paths visited depth =
        ([], visited)) := by
  intro fs fn patterns exclude_paths visited depth root
  refine ⟨?_, ?_, ?_⟩
  · intro hd
    unfold scan_directory
    rw [show MAX_DEPTH + 1 - depth = 0 from by
      unfold MAX_DEPTH at hd ⊢
      omega]
    rfl
  · intro ino hstat hvis
    unfold scan_directory
    cases hfuel : MAX_DEPTH + 1 - depth with
    | zero => rfl
    | succ n =>
      simp only [scanDirFuel]
      rw [hstat]
      show (if visited.contains ino = true then _ else _) = _
      rw [show visited.contains ino = true from
        List.elem_eq_true_of_mem hvis]
      rfl
  · intro hstat
    unfold scan_directory
    cases hfuel : MAX_DEPTH + 1 - depth with
    | zero => rfl
    | succ n =>
      simp only [scanDirFuel]
      rw [hstat]

/-- C9 witness: at depth 21 the scan yields nothing and leaves the
visited set unchanged. -/
theorem c9_witness :
    scan_directory
      ⟨fun _ => some 0, fun _ => some [], fun _ => true, fun _ => true,
        fun _ => true⟩
      (fun _ _ => false) ⟨["a"]⟩ [] [] [] 21 = ([], []) :=
  (c9_scanner_guards
      ⟨fun _ => some 0, fun _ => some [], fun _ => true, fun _ => true,
        fun _ => true⟩
      (fun _ _ => false) [] [] [] 21 ⟨["a"]⟩).1 (by decide)

/-- C10: the per-component fnmatch check in matches_any_pattern runs for
every pattern, not only recursive-wildcard ones: a pattern free of the
recursive wildcard that fnmatch-matches any single component of the path
excludes the path; consequently such a pattern matching a component of a
scan root's own path makes the scan of that root yield nothing, pruning
the entire subtree. -/
theorem c10_component_match_excludes :
    (∀ (fn : String → String → Bool) (p : String) (patterns : List String)
      (path : PurePath),
      p ∈ patterns → strContains p "**" = false →
      (∃ part ∈ path.parts, fn part p = true) →
      matches_any_pattern fn path patterns = true) ∧
    (∀ (fs : FS) (fn : String → String → Bool) (patterns : List String)
      (exclude_paths : List PurePath) (visited : List Nat) (depth : Nat)
      (root : PurePath) (p : String),
      p ∈ patterns → strContains p "**" = false →
      (∃ part ∈ root.parts, fn part p = true) →
      (scan_directory fs fn root patterns exclude_paths visited depth).1 =
        []) := by
  constructor
  · intro fn p patterns path hmem hns hc
    exact matches_any_pattern_of_component hmem hns hc
  · intro fs fn patterns exclude_paths visited depth root p hmem hns hc
    have hexcl : should_exclude fn root patterns exclude_paths = true := by
      unfold should_exclude
      rw [matches_any_pattern_of_component hmem hns hc, Bool.or_true]
    unfold scan_directory
    exact scanDirFuel_excluded hexcl (MAX_DEPTH + 1 - depth) visited

/-- C10 witness: the non-recursive pattern node_modules, matching a middle
component of the path, excludes the path, and the scan of a root whose
path contains that component yields nothing. -/
theorem c10_witness :
    matches_any_pattern (fun s t => s = t)
      ⟨["home", "node_modules", "x"]⟩ ["node_modules"] = true ∧
    (scan_directory
      ⟨fun _ => some 0, fun _ => some [], fun p => p.parts = ["g"],
        fun _ => true, fun _ => true⟩
      (fun s t => s = t) ⟨["home", "node_modules", "x"]⟩ ["node_modules"]
      [] [] 0).1 = [] :=
  ⟨c10_component_match_excludes.1 (fun s t => s = t) "node_modules"
      ["node_modules"] ⟨["home", "node_modules", "x"]⟩
      (by decide) (by decide) (by decide),
    c10_component_match_excludes.2
      ⟨fun _ => some 0, fun _ => some [], fun p => p.parts = ["g"],
        fun _ => true, fun _ => true⟩
      (fun s t => s = t) ["node_modules"] [] [] 0
      ⟨["home", "node_modules", "x"]⟩ "node_modules"
      (by decide) (by decide) (by decide)⟩

theorem get_current_branch_ok0 (rb : CompletedProcess)
    (h : rb.returncode = 0) :
    get_current_branch (.ok rb) = .ok (pyStrip rb.stdout) := by
  unfold get_current_branch
  show (if rb.returncode ≠ 0 then _ else _) = _
  rw [if_neg (by rw [h]; exact fun hc => hc rfl)]

theorem get_current_branch_raises (rb : CompletedProcess)
    (h : rb.returncode ≠ 0) :
    get_current_branch (.ok rb) =
      .error ⟨"Failed to get branch: " ++ pyStrip rb.stderr⟩ := by
  unfold get_current_branch
  show (if rb.returncode ≠ 0 then _ else _) = _
  rw [if_pos h]

theorem has_upstream_true (ru : CompletedProcess) (h : ru.returncode = 0) :
    has_upstream (.ok ru) = .ok true := by
  show Except.ok (decide (ru.returncode = 0)) = Except.ok true
  rw [show decide (ru.returncode = 0) = true by simp [h]]

theorem grs_ok_err (u : CompletedProcess) (e : GitError)
    (h : u.returncode = 0) :
    get_remote_status (.ok u) (.error e) = .error e := by
  unfold get_remote_status
  rw [has_upstream_true u h]

/-- C1: analysis of one repository degrades every GitError raised during
the gateway sequence to the error snapshot (branch unknown, status error,
all counts zero, error message set) instead of propagating it, whichever
operation raised it: a raised invocation at any of the six call sites,
and also the GitError get_current_branch itself raises when the branch
query exits nonzero; the conjuncts partition the whole input space, the
final one showing every raise-free run returns the normally assembled
snapshot. -/
theorem c1_analyze_repo_degrades :
    ∀ (w : GitWorld) (config : Config) (p : PurePath) (e : GitError),
    (w.branchCmd = .error e →
      analyze_repo w config p =
        { path := p, branch := "unknown", status := .ERROR,
          error_message := some e.message }) ∧
    (∀ rb, w.branchCmd = .ok rb → rb.returncode ≠ 0 →
      analyze_repo w config p =
        { path := p, branch := "unknown", status := .ERROR,
          error_message :=
            some ("Failed to get branch: " ++ pyStrip rb.stderr) }) ∧
    (∀ rb, w.branchCmd = .ok rb → rb.returncode = 0 →
      w.statusCmd = .error e →
      analyze_repo w config p =
        { path := p, branch := "unknown", status := .ERROR,
          error_message := some e.message }) ∧
    (∀ rb rs, w.branchCmd = .ok rb → rb.returncode = 0 →
      w.statusCmd = .ok rs → w.upstreamCmd = .error e →
      analyze_repo w config p =
        { path := p, branch := "unknown", status := .ERROR,
          error_message := some e.message }) ∧
    (∀ rb rs ru, w.branchCmd = .ok rb → rb.returncode = 0 →
      w.statusCmd = .ok rs → w.upstreamCmd = .ok ru →
      w.stashOp = .error e →
      analyze_repo w config p =
        { path := p, branch := "unknown", status := .ERROR,
          error_message := some e.message }) ∧
    (∀ rb rs ru sv, w.branchCmd = .ok rb → rb.returncode = 0 →
      w.statusCmd = .ok rs → w.upstreamCmd = .ok ru →
      ru.returncode = 0 → w.stashOp = .ok sv → w.fetchCmd = .error e →
      analyze_repo w config p =
        { path := p, branch := "unknown", status := .ERROR,
          error_message := some e.message }) ∧
    (∀ rb rs ru sv rf, w.branchCmd = .ok rb → rb.returncode = 0 →
      w.statusCmd = .ok rs → w.upstreamCmd = .ok ru →
      ru.returncode = 0 → w.stashOp = .ok sv → w.fetchCmd = .ok rf →
      w.revListCmd = .error e →
      analyze_repo w config p =
        { path := p, branch := "unknown", status := .ERROR,
          error_message := some e.message }) ∧
    (∀ info, analyzeRepoE w config p = .ok info →
      analyze_repo w config p = info) := by
  intro w config p e
  refine ⟨?_, ?_, ?_, ?_, ?_, ?_, ?_, ?_⟩
  · intro hb
    have hE : analyzeRepoE w config p = .error e := by
      unfold analyzeRepoE
      simp only [bind, Except.bind, pure, Except.pure, has_stash]
      rw [hb]
      rfl
    unfold analyze_repo
    rw [hE]
  · intro rb hb hrc
    have hE : analyzeRepoE w config p =
        .error ⟨"Failed to get branch: " ++ pyStrip rb.stderr⟩ := by
      unfold analyzeRepoE
      simp only [bind, Except.bind, pure, Except.pure, has_stash]
      rw [hb, get_current_branch_raises rb hrc]
    unfold analyze_repo
    rw [hE]
  · intro rb hb hrc hs
    have hE : analyzeRepoE w config p = .error e := by
      unfold analyzeRepoE
      simp only [bind, Except.bind, pure, Except.pure, has_stash]
      rw [hb, get_current_branch_ok0 rb hrc, hs]
      rfl
    unfold analyze_repo
    rw [hE]
  · intro rb rs hb hrc hs hu
    obtain ⟨v, hv⟩ := get_repo_status_ok rs
    have hE : analyzeRepoE w config p = .error e := by
      unfold analyzeRepoE
      simp only [bind, Except.bind, pure, Except.pure, has_stash]
      rw [hb, get_current_branch_ok0 rb hrc, hs, hv, hu]
      rfl
    unfold analyze_repo
    rw [hE]
  · intro rb rs ru hb hrc hs hu hst
    obtain ⟨v, hv⟩ := get_repo_status_ok rs
    have hE : analyzeRepoE w config p = .error e := by
      unfold analyzeRepoE
      simp only [bind, Except.bind, pure, Except.pure, has_stash]
      rw [hb, get_current_branch_ok0 rb hrc, hs, hv, hu, hst]
      rfl
    unfold analyze_repo
    rw [hE]
  · intro rb rs ru sv hb hrc hs hu hru0 hst hf
    obtain ⟨v, hv⟩ := get_repo_status_ok rs
    have hE : analyzeRepoE w config p = .error e := by
      unfold analyzeRepoE
      simp only [bind, Except.bind, pure, Except.pure, has_stash]
      rw [hb, get_current_branch_ok0 rb hrc, hs, hv, hu,
        has_upstream_true ru hru0, hst, hf]
      rfl
    unfold analyze_repo
    rw [hE]
  · intro rb rs ru sv rf hb hrc hs hu hru0 hst hf hrl
    obtain ⟨v, hv⟩ := get_repo_status_ok rs
    have hE : analyzeRepoE w config p = .error e := by
      unfold analyzeRepoE
      simp only [bind, Except.bind, pure, Except.pure, has_stash]
      rw [hb, get_current_branch_ok0 rb hrc, hs, hv, hu,
        has_upstream_true ru hru0, hst, hf, hrl,
        grs_ok_err ru e hru0]
      rfl
    unfold analyze_repo
    rw [hE]
  · intro info hok
    unfold analyze_repo
    rw [hok]

/-- C1 witness: a world whose branch query raises yields exactly the
degraded error snapshot. -/
theorem c1_witness :
    analyze_repo
      ⟨.error ⟨"boom"⟩, .error ⟨"boom"⟩, .error ⟨"boom"⟩, .error ⟨"boom"⟩,
        .error ⟨"boom"⟩, .error ⟨"boom"⟩⟩ {} ⟨["p"]⟩ =
    { path := ⟨["p"]⟩, branch := "unknown", status := .ERROR,
      error_message := some "boom" } :=
  (c1_analyze_repo_degrades
      ⟨.error ⟨"boom"⟩, .error ⟨"boom"⟩, .error ⟨"boom"⟩, .error ⟨"boom"⟩,
        .error ⟨"boom"⟩, .error ⟨"boom"⟩⟩ {} ⟨["p"]⟩ ⟨"boom"⟩).1 rfl

/-- C2: detect_warnings called with a true stash flag always includes the
has_stash warning, and every raise-free analyzer snapshot whose stash
query returned true records has_stash = true and carries the has_stash
warning. -/
theorem c2_has_stash_recorded :
    (∀ (branch : String) (status : RepoStatus) (is_main has_remote : Bool),
      WarningType.HAS_STASH ∈
        detect_warnings branch status is_main has_remote true) ∧
    (∀ (w : GitWorld) (config : Config) (p : PurePath) (info : RepoInfo),
      analyzeRepoE w config p = .ok info → w.stashOp = .ok true →
      info.has_stash = true ∧ WarningType.HAS_STASH ∈ info.warnings) := by
  have hgen : ∀ (branch : String) (status : RepoStatus)
      (is_main has_remote : Bool),
      WarningType.HAS_STASH ∈
        detect_warnings branch status is_main has_remote true := by
    intro branch status is_main has_remote
    unfold detect_warnings
    simp
  refine ⟨hgen, ?_⟩
  intro w config p info hok hst
  obtain ⟨branch, st, hr, sv, ab, h1, h2, h3, h4, h5, hinfo⟩ :=
    analyzeRepoE_ok_inv hok
  have hsv : sv = true := by
    rw [hst] at h4
    cases h4
    rfl
  subst hinfo
  refine ⟨hsv, ?_⟩
  show WarningType.HAS_STASH ∈ detect_warnings branch st.1
    (is_main_branch branch config.main_branches) hr sv
  rw [hsv]
  exact hgen branch st.1 (is_main_branch branch config.main_branches) hr

/-- C2 witness: a concrete raise-free analysis with stash entries yields a
snapshot with has_stash true and the has_stash warning. -/
theorem c2_witness :
    ({ path := ⟨["p"]⟩, branch := "main", status := .CLEAN,
       is_main_branch := true, ahead_count := 0, behind_count := 0,
       changed_files := 0, untracked_files := 0, has_stash := true,
       warnings := [.HAS_STASH] } : RepoInfo).has_stash = true ∧
    WarningType.HAS_STASH ∈
      ({ path := ⟨["p"]⟩, branch := "main", status := .CLEAN,
         is_main_branch := true, ahead_count := 0, behind_count := 0,
         changed_files := 0, untracked_files := 0, has_stash := true,
         warnings := [.HAS_STASH] } : RepoInfo).warnings :=
  c2_has_stash_recorded.2
    ⟨.ok ⟨0, "main", ""⟩, .ok ⟨0, "", ""⟩, .ok ⟨0, "", ""⟩, .ok true,
      .ok ⟨0, "", ""⟩, .ok ⟨0, "0 0", ""⟩⟩ {} ⟨["p"]⟩
    { path := ⟨["p"]⟩, branch := "main", status := .CLEAN,
      is_main_branch := true, ahead_count := 0, behind_count := 0,
      changed_files := 0, untracked_files := 0, has_stash := true,
      warnings := [.HAS_STASH] } rfl rfl

/-- C3 counterexample: when git status exits nonzero without raising (the
repository's own test suite exercises this via a non-repository
directory), analyze_repo returns a snapshot with status error and no
error message, refuting the claimed equivalence. -/
theorem c3_counterexample :
    (analyze_repo
      ⟨.ok ⟨0, "main", ""⟩, .ok ⟨1, "", ""⟩, .ok ⟨1, "", ""⟩, .ok false,
        .ok ⟨0, "", ""⟩, .ok ⟨0, "", ""⟩⟩ {} ⟨["p"]⟩).status = .ERROR ∧
    (analyze_repo
      ⟨.ok ⟨0, "main", ""⟩, .ok ⟨1, "", ""⟩, .ok ⟨1, "", ""⟩, .ok false,
        .ok ⟨0, "", ""⟩, .ok ⟨0, "", ""⟩⟩ {} ⟨["p"]⟩).error_message =
      none := by
  constructor <;> rfl

/-- C3 amended: the implication holds in one direction only: every
snapshot with error_message set has status error (directly from
analyze_repo and for every snapshot in a scan_and_analyze result), but a
nonzero git status exit yields status error with error_message absent
(see the counterexample). -/
theorem c3_error_message_implies_error :
    (∀ (w : GitWorld) (config : Config) (p : PurePath) (m : String),
      (analyze_repo w config p).error_message = some m →
      (analyze_repo w config p).status = .ERROR) ∧
    (∀ (fs : FS) (fn : String → String → Bool)
      (worlds : PurePath → GitWorld)
      (pull : PurePath → Except GitError PullResult) (config : Config)
      (auto_pull : Bool) (result : ScanResult) (r : RepoInfo),
      scan_and_analyze fs fn worlds pull config auto_pull = .ok result →
      r ∈ result.repos → ∀ m, r.error_message = some m →
      r.status = .ERROR) := by
  constructor
  · intro w config p m
    exact analyze_repo_error_message_invariant w config p m
  · intro fs fn worlds pull config ap result r hscan hr m hm
    have hsortedP : ∀ x ∈ sortByPath
        ((find_git_repos fs fn config.scan_paths config.exclude_patterns
          config.exclude_paths).map
          (fun q => analyze_repo (worlds q) config q)),
        ∀ m2, x.error_message = some m2 → x.status = .ERROR := by
      intro x hx m2 hm2
      have hx2 := mem_sortByPath hx
      rw [List.mem_map] at hx2
      obtain ⟨q, hq, hxq⟩ := hx2
      rw [← hxq] at hm2 ⊢
      exact analyze_repo_error_message_invariant (worlds q) config q m2 hm2
    simp only [scan_and_analyze] at hscan
    by_cases hap : ap = true
    · rw [if_pos hap] at hscan
      split at hscan
      · cases hscan
      rename_i repos2 results hpass
      cases hscan
      exact autoPullPass_error_invariant _ repos2 results hsortedP hpass
        r hr m hm
    · rw [if_neg hap] at hscan
      have hscan2 : Except.ok
          ({ repos := sortByPath
              ((find_git_repos fs fn config.scan_paths
                config.exclude_patterns config.exclude_paths).map
                (fun q => analyze_repo (worlds q) config q)),
             pull_results := [],
             total_scanned := (sortByPath
              ((find_git_repos fs fn config.scan_paths
                config.exclude_patterns config.exclude_paths).map
                (fun q => analyze_repo (worlds q) config q))).length,
             scan_errors := [] } : ScanResult) = .ok result := hscan
      cases hscan2
      exact hsortedP r hr m hm

/-- C3 amended witness: a snapshot whose error message is set has status
error. -/
theorem c3_witness :
    (analyze_repo
      ⟨.error ⟨"x"⟩, .error ⟨"x"⟩, .error ⟨"x"⟩, .error ⟨"x"⟩,
        .error ⟨"x"⟩, .error ⟨"x"⟩⟩ {} ⟨["q"]⟩).status = .ERROR :=
  c3_error_message_implies_error.1
    ⟨.error ⟨"x"⟩, .error ⟨"x"⟩, .error ⟨"x"⟩, .error ⟨"x"⟩,
      .error ⟨"x"⟩, .error ⟨"x"⟩⟩ {} ⟨["q"]⟩ "x" rfl

end GRC
